import Mathlib

/-!
Verification of the booking lifecycle of the carparkly backend.

The development shallowly embeds the booking service (`BookingService`), the
booking and partner repositories (`BookingRepository`, `PartnerRepository`),
the payment repository's refund entry point (`PaymentRepository.processRefund`,
from the Payment Repository section of the sources), and the status
enum/default of the booking Mongoose schema (`BookingModel`).

Records live in an explicit `Store`; each repository call is a pure function
from stores to stores.  Mongo's `findByIdAndUpdate` is modelled as updating
the first record whose id matches (`updateById`); `_id`s are unique in Mongo,
which theorems assume through `Nodup` hypotheses on the stores' id lists
where the claim needs it.  Times are integers (milliseconds); `Date.now()`
and the `new Date()` audit timestamps are one explicit `now` argument.
-/

namespace Carparkly

/-- Audit log entry, the object pushed by `logBookingAction` and
`logPartnerAction`: `{ action, timestamp: new Date() }`. -/
structure AuditEntry where
  action : String
  timestamp : Int
deriving DecidableEq

/-- Booking record with the fields the booking service reads and writes:
`clientId`, `partnerId`, `parkingSpotId`, `startTime`, `endTime`, `amount`,
`paymentId` (optional), `status`, `createdAt` (schema timestamps), and the
`auditLogs` array pushed to by `logBookingAction`. -/
structure Booking where
  id : Nat
  clientId : Nat
  partnerId : Nat
  parkingSpotId : Nat
  startTime : Int
  endTime : Int
  amount : Int
  paymentId : Option Nat
  status : String
  createdAt : Int
  auditLogs : List AuditEntry
deriving DecidableEq

/-- Partner record: the fields used by the booking flow are `status`
(enum `active`, `pending`, `suspended`) and the `auditLogs` array pushed to
by `logPartnerAction`. -/
structure Partner where
  id : Nat
  status : String
  auditLogs : List AuditEntry
deriving DecidableEq

/-- Payment record: the refund-relevant fields of the payment schema,
`isRefunded` and `refundAmount`. -/
structure Payment where
  id : Nat
  isRefunded : Bool
  refundAmount : Int
deriving DecidableEq

/-- The document database.  `refundCalls` is the trace of
`PaymentRepository.processRefund` invocations `(paymentId, amount)`, used to
state how many refund calls an operation performs. -/
structure Store where
  bookings : List Booking
  partners : List Partner
  payments : List Payment
  refundCalls : List (Nat × Int)
deriving DecidableEq

/-- Mongo `findByIdAndUpdate` update step: replace the first record whose
key equals `i` by its image under `f`; every other record is untouched. -/
def updateById {α : Type} (key : α → Nat) (l : List α) (i : Nat) (f : α → α) : List α :=
  match l with
  | [] => []
  | a :: rest => if key a == i then f a :: rest else a :: updateById key rest i f

theorem updateById_map_key {α : Type} (key : α → Nat) (f : α → α)
    (hf : ∀ a, key (f a) = key a) (i : Nat) :
    ∀ l : List α, (updateById key l i f).map key = l.map key := by
  intro l
  induction l with
  | nil => rfl
  | cons a rest ih =>
    by_cases h : key a == i
    · simp [updateById, h, hf]
    · simp [updateById, h, ih]

theorem find?_updateById_self {α : Type} (key : α → Nat) (f : α → α)
    (hf : ∀ a, key (f a) = key a) (i : Nat) (b : α) :
    ∀ l : List α, l.find? (fun a => key a == i) = some b →
      (updateById key l i f).find? (fun a => key a == i) = some (f b) := by
  intro l
  induction l with
  | nil => intro h; simp at h
  | cons a rest ih =>
    intro h
    cases ha : (key a == i) with
    | true =>
      rw [List.find?_cons, ha] at h
      injection h with h
      subst h
      simp [updateById, ha, List.find?_cons, hf]
    | false =>
      rw [List.find?_cons, ha] at h
      simp only [updateById, ha, Bool.false_eq_true, if_false]
      rw [List.find?_cons, ha]
      exact ih h

theorem find?_updateById_ne {α : Type} (key : α → Nat) (f : α → α)
    (hf : ∀ a, key (f a) = key a) (i j : Nat) (hne : j ≠ i) :
    ∀ l : List α,
      (updateById key l i f).find? (fun a => key a == j) = l.find? (fun a => key a == j) := by
  intro l
  induction l with
  | nil => rfl
  | cons a rest ih =>
    cases ha : (key a == i) with
    | true =>
      have hai : key a = i := by simpa using ha
      have haj : (key a == j) = false := by
        simp only [beq_eq_false_iff_ne, ne_eq, hai]
        exact fun h => hne h.symm
      have hfj : (key (f a) == j) = false := by rw [hf]; exact haj
      simp only [updateById, ha, if_true]
      rw [List.find?_cons, hfj, List.find?_cons, haj]
    | false =>
      simp only [updateById, ha, Bool.false_eq_true, if_false]
      rw [List.find?_cons (a := a), List.find?_cons (a := a)]
      cases haj : (key a == j) with
      | true => rfl
      | false => exact ih

theorem updateById_of_find?_none {α : Type} (key : α → Nat) (f : α → α) (i : Nat) :
    ∀ l : List α, l.find? (fun a => key a == i) = none → updateById key l i f = l := by
  intro l
  induction l with
  | nil => intro _; rfl
  | cons a rest ih =>
    intro h
    cases ha : (key a == i) with
    | true => rw [List.find?_cons, ha] at h; cases h
    | false =>
      rw [List.find?_cons, ha] at h
      simp only [updateById, ha, Bool.false_eq_true, if_false, ih h]

theorem find?_eq_of_mem_nodup {α : Type} (key : α → Nat) :
    ∀ (l : List α) (b : α), (l.map key).Nodup → b ∈ l →
      l.find? (fun a => key a == key b) = some b := by
  intro l
  induction l with
  | nil => intro b _ hb; cases hb
  | cons a rest ih =>
    intro b hnd hb
    rw [List.map_cons, List.nodup_cons] at hnd
    rcases List.mem_cons.mp hb with hba | hbr
    · subst hba
      rw [List.find?_cons]
      simp
    · have hne : (key a == key b) = false := by
        simp only [beq_eq_false_iff_ne, ne_eq]
        intro h
        exact hnd.1 (h ▸ List.mem_map_of_mem key hbr)
      rw [List.find?_cons, hne]
      exact ih b hnd.2 hbr

theorem key_inj_of_nodup {α : Type} (key : α → Nat) (l : List α)
    (hnd : (l.map key).Nodup) {a b : α} (ha : a ∈ l) (hb : b ∈ l)
    (h : key a = key b) : a = b :=
  List.inj_on_of_nodup_map hnd ha hb h

/-- Failures thrown by the booking service and the persistence layer:
the service throws `Partner is not available for booking`,
`Booking conflict detected`, `Booking not found` and
`Unauthorized cancellation`; `validationError` is a Mongoose schema
`ValidationError` raised by `save()`. -/
inductive BookingErr where
  | partnerUnavailable
  | bookingConflict
  | notFound
  | unauthorized
  | validationError
deriving DecidableEq

/-- Caller-supplied `bookingData` of `createBooking`: partner, spot and client
references, the time window, the amount, an optional payment reference, and a
caller-supplied `status` which is optional (the schema default applies when
it is absent). -/
structure BookingData where
  id : Nat
  clientId : Nat
  partnerId : Nat
  parkingSpotId : Nat
  startTime : Int
  endTime : Int
  amount : Int
  paymentId : Option Nat
  status : Option String
deriving DecidableEq

namespace BookingModel

/-- Status enum of `bookingSchema.status`:
`['pending', 'confirmed', 'completed', 'cancelled', 'expired', 'no-show']`. -/
def bookingStatusEnum : List String :=
  ["pending", "confirmed", "completed", "cancelled", "expired", "no-show"]

/-- Mongoose default of `bookingSchema.status`: `'pending'`. -/
def bookingStatusDefault : String := "pending"

/-- Mongoose applies the schema default when the field is absent from the
document being created. -/
def applyBookingStatusDefault : Option String → String
  | none => bookingStatusDefault
  | some s => s

/-- Schema enum validation run by `save()` on the status field. -/
def bookingStatusValid (s : String) : Bool := bookingStatusEnum.contains s

end BookingModel

namespace BookingRepository

/-- BookingRepository.findById: `Booking.findById(bookingId)`, the first
(unique) record with the given `_id`, or null. -/
def findById (st : Store) (bookingId : Nat) : Option Booking :=
  st.bookings.find? (fun b => b.id == bookingId)

/-- BookingRepository.searchBookings with the service's single-argument call
pattern, so options take the repository defaults
`{ limit = 10, page = 1, sort = '-createdAt' }`:
`Booking.find(filters).sort('-createdAt').skip((1-1)*10).limit(10)`.
The sort is by `createdAt` descending (Mongo's tie order is unspecified;
insertion sort realises one admissible order). -/
def searchBookings (st : Store) (flt : Booking → Bool) : List Booking :=
  ((st.bookings.filter flt).insertionSort
    (fun a b => b.createdAt ≤ a.createdAt)).take 10

/-- BookingRepository.updateBooking(bookingId, updateData):
`findByIdAndUpdate(bookingId, updateData, { new: true, runValidators: true })`.
Every call site relevant to the claims passes `{ status }`, so the update is
embedded at that type; `runValidators` is vacuous there because the only
status written through it is `'cancelled'`, a member of the enum. -/
def updateBooking (st : Store) (bookingId : Nat) (status : String) :
    Option Booking × Store :=
  ((findById st bookingId).map (fun b => { b with status := status }),
   { st with bookings :=
      (updateById (fun b => b.id) st.bookings bookingId
        (fun b => { b with status := status })) })

/-- BookingRepository.updateBookingStatus(bookingId, status):
`findByIdAndUpdate(bookingId, { status }, { new: true })`; null when the id
does not resolve. -/
def updateBookingStatus (st : Store) (bookingId : Nat) (status : String) :
    Option Booking × Store :=
  ((findById st bookingId).map (fun b => { b with status := status }),
   { st with bookings :=
      (updateById (fun b => b.id) st.bookings bookingId
        (fun b => { b with status := status })) })

/-- BookingRepository.logBookingAction(bookingId, action):
`findByIdAndUpdate(bookingId, { $push: { auditLogs: { action, timestamp:
new Date() } } }, { new: true })`; null when the id does not resolve. -/
def logBookingAction (st : Store) (now : Int) (bookingId : Nat) (action : String) :
    Option Booking × Store :=
  ((findById st bookingId).map
    (fun b => { b with auditLogs := b.auditLogs ++ [⟨action, now⟩] }),
   { st with bookings :=
      (updateById (fun b => b.id) st.bookings bookingId
        (fun b => { b with auditLogs := b.auditLogs ++ [⟨action, now⟩] })) })

/-- BookingRepository.createBooking(bookingData): `new Booking(bookingData)`
applies the schema defaults (status becomes `'pending'` when absent,
`createdAt` comes from the schema's timestamps), and `save()` runs the schema
validation of the status enum, raising a `ValidationError` otherwise. -/
def createBooking (st : Store) (now : Int) (d : BookingData) :
    Except BookingErr Booking × Store :=
  let s := BookingModel.applyBookingStatusDefault d.status
  if BookingModel.bookingStatusValid s then
    let b : Booking :=
      { id := d.id, clientId := d.clientId, partnerId := d.partnerId,
        parkingSpotId := d.parkingSpotId, startTime := d.startTime,
        endTime := d.endTime, amount := d.amount, paymentId := d.paymentId,
        status := s, createdAt := now, auditLogs := [] }
    (.ok b, { st with bookings := st.bookings ++ [b] })
  else (.error .validationError, st)

end BookingRepository

namespace PartnerRepository

/-- PartnerRepository.findById: `Partner.findById(partnerId)`. -/
def findById (st : Store) (partnerId : Nat) : Option Partner :=
  st.partners.find? (fun p => p.id == partnerId)

/-- PartnerRepository.logPartnerAction(partnerId, action):
`findByIdAndUpdate(partnerId, { $push: { auditLogs: { action, timestamp:
new Date() } } }, { new: true })`; null when the id does not resolve. -/
def logPartnerAction (st : Store) (now : Int) (partnerId : Nat) (action : String) :
    Option Partner × Store :=
  ((findById st partnerId).map
    (fun p => { p with auditLogs := p.auditLogs ++ [⟨action, now⟩] }),
   { st with partners :=
      (updateById (fun p => p.id) st.partners partnerId
        (fun p => { p with auditLogs := p.auditLogs ++ [⟨action, now⟩] })) })

end PartnerRepository

namespace PaymentRepository

/-- PaymentRepository.processRefund(paymentId, refundAmount), from the
repository's Payment Repository section:
`if (!mongoose.Types.ObjectId.isValid(paymentId) || refundAmount <= 0)
return null;` then
`Payment.findByIdAndUpdate(paymentId, { isRefunded: true, refundAmount },
{ new: true })`.  A non-positive refund amount resolves null and performs no
mutation; otherwise the payment is marked refunded with the given amount,
resolving the updated record or null when the id does not resolve.  The
ObjectId-format guard is elided as for every other repository call (ids are
plain `Nat` here).  The invocation itself is appended to the `refundCalls`
trace in either case: the trace records the calls made, not their effect. -/
def processRefund (st : Store) (paymentId : Nat) (amount : Int) :
    Option Payment × Store :=
  if amount ≤ 0 then
    (none, { st with refundCalls := st.refundCalls ++ [(paymentId, amount)] })
  else
    ((st.payments.find? (fun p => p.id == paymentId)).map
      (fun p => { p with isRefunded := true, refundAmount := amount }),
     { st with
        payments :=
          (updateById (fun p => p.id) st.payments paymentId
            (fun p => { p with isRefunded := true, refundAmount := amount })),
        refundCalls := st.refundCalls ++ [(paymentId, amount)] })

end PaymentRepository

theorem processRefund_snd_refundCalls (st : Store) (paymentId : Nat) (amount : Int) :
    (PaymentRepository.processRefund st paymentId amount).2.refundCalls =
      st.refundCalls ++ [(paymentId, amount)] := by
  unfold PaymentRepository.processRefund
  split <;> rfl

theorem processRefund_snd_partners (st : Store) (paymentId : Nat) (amount : Int) :
    (PaymentRepository.processRefund st paymentId amount).2.partners =
      st.partners := by
  unfold PaymentRepository.processRefund
  split <;> rfl

theorem processRefund_snd_bookings (st : Store) (paymentId : Nat) (amount : Int) :
    (PaymentRepository.processRefund st paymentId amount).2.bookings =
      st.bookings := by
  unfold PaymentRepository.processRefund
  split <;> rfl

/-- Conflict filter of `createBooking`:
`{ partnerId, status: 'confirmed', $or: [ { startTime: { $lt: endTime, $gte:
startTime } }, { endTime: { $gt: startTime, $lte: endTime } } ] }` — an
existing confirmed booking of the same partner matches when its start lies in
`[startTime, endTime)` or its end lies in `(startTime, endTime]`. -/
def conflictFilter (partnerId : Nat) (startTime endTime : Int) (b : Booking) : Bool :=
  b.partnerId == partnerId && b.status == "confirmed" &&
    ((decide (b.startTime < endTime) && decide (startTime ≤ b.startTime)) ||
     (decide (startTime < b.endTime) && decide (b.endTime ≤ endTime)))

/-- Overlap of half-open windows as the spec words it: two intervals overlap
when `existing.start < new.end AND existing.end > new.start`.  Stated from
the spec's words, for comparison with `conflictFilter`. -/
def specOverlap (startTime endTime : Int) (b : Booking) : Bool :=
  decide (b.startTime < endTime) && decide (startTime < b.endTime)

/-- Expiry filter of `autoCancelExpiredBookings`:
`{ status: 'pending', createdAt: { $lt: new Date(Date.now() - 30 * 60 * 1000) } }`. -/
def expiredFilter (now : Int) (b : Booking) : Bool :=
  b.status == "pending" && decide (b.createdAt < now - 30 * 60 * 1000)

namespace BookingService

/-- createBooking(bookingData) of the booking service: partner availability
check, conflict query, then persist. -/
def createBooking (st : Store) (now : Int) (d : BookingData) :
    Except BookingErr Booking × Store :=
  match PartnerRepository.findById st d.partnerId with
  | none => (.error .partnerUnavailable, st)
  | some partner =>
    if partner.status ≠ "active" then (.error .partnerUnavailable, st)
    else
      let conflict :=
        BookingRepository.searchBookings st
          (conflictFilter d.partnerId d.startTime d.endTime)
      if conflict.length > 0 then (.error .bookingConflict, st)
      else BookingRepository.createBooking st now d

/-- Loop body of the sweep in `autoCancelExpiredBookings`: update the booking
to `cancelled`, then append the audit action. -/
def sweepStep (now : Int) (st : Store) (bookingId : Nat) : Store :=
  (BookingRepository.logBookingAction
    (BookingRepository.updateBooking st bookingId "cancelled").2
    now bookingId "Booking auto-cancelled due to expiration").2

/-- autoCancelExpiredBookings() of the booking service: query pending
bookings older than 30 minutes, then sequentially cancel and audit-log each
returned booking. -/
def autoCancelExpiredBookings (st : Store) (now : Int) : Store :=
  (BookingRepository.searchBookings st (expiredFilter now)).foldl
    (fun acc b => sweepStep now acc b.id) st

/-- cancelBooking(bookingId, clientId) of the booking service: existence and
ownership checks, refund when a payment reference is attached (result
unchecked), partner audit, then the status update whose result is returned. -/
def cancelBooking (st : Store) (now : Int) (bookingId clientId : Nat) :
    Except BookingErr (Option Booking) × Store :=
  match BookingRepository.findById st bookingId with
  | none => (.error .notFound, st)
  | some booking =>
    if booking.clientId ≠ clientId then (.error .unauthorized, st)
    else
      let st1 :=
        match booking.paymentId with
        | some pid => (PaymentRepository.processRefund st pid booking.amount).2
        | none => st
      let st2 :=
        (PartnerRepository.logPartnerAction st1 now booking.partnerId
          "Booking Cancelled").2
      let r := BookingRepository.updateBooking st2 bookingId "cancelled"
      (.ok r.1, r.2)

/-- updateBookingStatus(bookingId, status) of the booking service: the
repository status update (null when the id does not resolve), then the
unconditional audit log entry `Status updated to <status>`; returns the
repository's result. -/
def updateBookingStatus (st : Store) (now : Int) (bookingId : Nat) (status : String) :
    Option Booking × Store :=
  let r := BookingRepository.updateBookingStatus st bookingId status
  ((r.1),
   (BookingRepository.logBookingAction r.2 now bookingId
     ("Status updated to " ++ status)).2)

/-- Per-booking failure of a sweep iteration, modelling a rejected repository
promise (for example a connection error or a failed validator) at the update
or at the audit-log call of one booking. -/
inductive SweepErr where
  | updateFailed (bookingId : Nat)
  | logFailed (bookingId : Nat)
deriving DecidableEq

/-- The sweep loop under JavaScript `await` semantics when repository calls
may reject: the loop body of `autoCancelExpiredBookings` is not wrapped in
try/catch, so the first rejection propagates out of the loop and the
remaining iterations never run, while mutations already performed persist.
`failUpd`/`failLog` say whose update/log call rejects; a rejecting call
performs no mutation. -/
def sweepFallibleLoop (failUpd failLog : Nat → Bool) (now : Int) :
    List Booking → Store → Store × Option SweepErr
  | [], st => (st, none)
  | b :: rest, st =>
    if failUpd b.id then (st, some (.updateFailed b.id))
    else if failLog b.id then
      ((BookingRepository.updateBooking st b.id "cancelled").2,
       some (.logFailed b.id))
    else sweepFallibleLoop failUpd failLog now rest (sweepStep now st b.id)

/-- autoCancelExpiredBookings() when per-booking repository calls may reject:
the query, then the fallible loop. -/
def autoCancelExpiredBookingsFallible (failUpd failLog : Nat → Bool)
    (st : Store) (now : Int) : Store × Option SweepErr :=
  sweepFallibleLoop failUpd failLog now
    (BookingRepository.searchBookings st (expiredFilter now)) st

end BookingService

theorem updateBookingStatusRepo_none (st : Store) (i : Nat) (s : String)
    (h : BookingRepository.findById st i = none) :
    BookingRepository.updateBookingStatus st i s = (none, st) := by
  have h' : st.bookings.find? (fun b => b.id == i) = none := h
  unfold BookingRepository.updateBookingStatus BookingRepository.findById
  rw [h', updateById_of_find?_none _ _ _ _ h']
  rfl

theorem logBookingAction_snd_none (st : Store) (now : Int) (i : Nat) (a : String)
    (h : BookingRepository.findById st i = none) :
    (BookingRepository.logBookingAction st now i a).2 = st := by
  have h' : st.bookings.find? (fun b => b.id == i) = none := h
  unfold BookingRepository.logBookingAction
  rw [updateById_of_find?_none _ _ _ _ h']

/-- C1.  The claim reads `createBooking` as rejecting exactly the requests
whose half-open window overlaps a confirmed booking of the same partner
(`existing.start < new.end AND existing.end > new.start`).  The deployed
`$or` query misses the containment case: here the confirmed booking
`[10, 14)` strictly contains the requested window `[11, 12)` — the two
windows overlap in the claim's sense — yet the conflict query matches
nothing and `createBooking` inserts the double booking and returns it. -/
theorem c1_conflict_check_misses_containment :
    specOverlap 11 12 (⟨1, 10, 1, 5, 10, 14, 100, none, "confirmed", 0, []⟩ : Booking) = true ∧
    BookingService.createBooking
        ⟨[⟨1, 10, 1, 5, 10, 14, 100, none, "confirmed", 0, []⟩], [⟨1, "active", []⟩], [], []⟩
        1000 ⟨2, 11, 1, 5, 11, 12, 100, none, some "pending"⟩ =
      (.ok ⟨2, 11, 1, 5, 11, 12, 100, none, "pending", 1000, []⟩,
       ⟨[⟨1, 10, 1, 5, 10, 14, 100, none, "confirmed", 0, []⟩,
         ⟨2, 11, 1, 5, 11, 12, 100, none, "pending", 1000, []⟩],
        [⟨1, "active", []⟩], [], []⟩) :=
  ⟨rfl, rfl⟩

/-- C4.  cancelBooking fails with `Booking not found` when the id does not
resolve, and with `Unauthorized cancellation` when the booking's owning
client differs from the caller; in both cases the returned store is the
input store — no refund is issued, no audit entry is appended and no status
changes. -/
theorem c4_cancel_not_found_and_unauthorized (st : Store) (now : Int)
    (bookingId clientId : Nat) :
    (BookingRepository.findById st bookingId = none →
      BookingService.cancelBooking st now bookingId clientId =
        (.error .notFound, st)) ∧
    (∀ b, BookingRepository.findById st bookingId = some b → b.clientId ≠ clientId →
      BookingService.cancelBooking st now bookingId clientId =
        (.error .unauthorized, st)) := by
  constructor
  · intro h
    unfold BookingService.cancelBooking
    rw [h]
  · intro b hb hne
    unfold BookingService.cancelBooking
    rw [hb]
    simp only [if_pos hne]

/-- C4 witness: on a store with one booking owned by client 2, cancelling a
missing id fails NotFound, and cancelling as client 3 fails Unauthorized,
both leaving the store unchanged. -/
theorem c4_witness :
    (BookingRepository.findById
        (⟨[⟨1, 2, 1, 1, 0, 1, 50, none, "confirmed", 0, []⟩], [], [], []⟩ : Store) 7 = none ∧
     BookingService.cancelBooking
        ⟨[⟨1, 2, 1, 1, 0, 1, 50, none, "confirmed", 0, []⟩], [], [], []⟩ 0 7 3 =
      (.error .notFound,
       ⟨[⟨1, 2, 1, 1, 0, 1, 50, none, "confirmed", 0, []⟩], [], [], []⟩)) ∧
    ((⟨1, 2, 1, 1, 0, 1, 50, none, "confirmed", 0, []⟩ : Booking).clientId ≠ 3 ∧
     BookingService.cancelBooking
        ⟨[⟨1, 2, 1, 1, 0, 1, 50, none, "confirmed", 0, []⟩], [], [], []⟩ 0 1 3 =
      (.error .unauthorized,
       ⟨[⟨1, 2, 1, 1, 0, 1, 50, none, "confirmed", 0, []⟩], [], [], []⟩)) :=
  ⟨⟨rfl, (c4_cancel_not_found_and_unauthorized _ 0 7 3).1 rfl⟩,
   ⟨by decide,
    (c4_cancel_not_found_and_unauthorized _ 0 1 3).2 _ rfl (by decide)⟩⟩

/-- C5.  createBooking fails with `Partner is not available for booking`
when the referenced partner does not resolve or resolves to a partner whose
status is not `active`; the returned store is the input store, so no
booking record is created. -/
theorem c5_partner_unavailable (st : Store) (now : Int) (d : BookingData)
    (h : ∀ pr, PartnerRepository.findById st d.partnerId = some pr →
      pr.status ≠ "active") :
    BookingService.createBooking st now d = (.error .partnerUnavailable, st) := by
  unfold BookingService.createBooking
  split
  · rfl
  · rename_i pr hf
    rw [if_pos (h pr hf)]

/-- C5 witness: a request against a `suspended` partner fails
PartnerUnavailable with the store unchanged, via the theorem. -/
theorem c5_witness :
    (∀ pr, PartnerRepository.findById
        (⟨[], [⟨1, "suspended", []⟩], [], []⟩ : Store) 1 = some pr →
      pr.status ≠ "active") ∧
    BookingService.createBooking ⟨[], [⟨1, "suspended", []⟩], [], []⟩ 0
        ⟨2, 3, 1, 5, 0, 10, 100, none, none⟩ =
      (.error .partnerUnavailable, ⟨[], [⟨1, "suspended", []⟩], [], []⟩) :=
  ⟨fun pr hpr => by
      injection hpr with h
      subst h
      decide,
   c5_partner_unavailable _ 0 _ (fun pr hpr => by
      injection hpr with h
      subst h
      decide)⟩

/-- C9 counterexample.  The claim says `updateBookingStatus` fails with
NotFound when the id does not resolve; the service instead returns null
with the store unchanged (its result type has no failure at all on this
path): on the empty store it evaluates to `(none, store)`. -/
theorem c9_counterexample :
    BookingService.updateBookingStatus (⟨[], [], [], []⟩ : Store) 0 5 "confirmed" =
      (none, (⟨[], [], [], []⟩ : Store)) :=
  rfl

/-- C9 amended.  When the id does not resolve, updateBookingStatus returns
null and changes nothing (no NotFound failure is raised); when it resolves,
the call returns the booking with the status applied and appends the audit
entry `Status updated to <status>` to that booking's log. -/
theorem c9_update_status (st : Store) (now : Int) (bookingId : Nat) (status : String) :
    (BookingRepository.findById st bookingId = none →
      BookingService.updateBookingStatus st now bookingId status = (none, st)) ∧
    (∀ b, BookingRepository.findById st bookingId = some b →
      (BookingService.updateBookingStatus st now bookingId status).1 =
        some { b with status := status } ∧
      BookingRepository.findById
          (BookingService.updateBookingStatus st now bookingId status).2 bookingId =
        some { b with status := status,
                      auditLogs := b.auditLogs ++
                        [⟨"Status updated to " ++ status, now⟩] }) := by
  constructor
  · intro h
    show ((BookingRepository.updateBookingStatus st bookingId status).1,
      (BookingRepository.logBookingAction
        (BookingRepository.updateBookingStatus st bookingId status).2 now bookingId
        ("Status updated to " ++ status)).2) = (none, st)
    rw [updateBookingStatusRepo_none st bookingId status h]
    show ((none : Option Booking),
      (BookingRepository.logBookingAction st now bookingId
        ("Status updated to " ++ status)).2) = (none, st)
    rw [logBookingAction_snd_none st now bookingId _ h]
  · intro b hb
    have hb' : st.bookings.find? (fun a => a.id == bookingId) = some b := hb
    constructor
    · have hr : (BookingRepository.updateBookingStatus st bookingId status).1 =
          some { b with status := status } := by
        unfold BookingRepository.updateBookingStatus BookingRepository.findById
        rw [hb']
        rfl
      exact hr
    · have h1 := find?_updateById_self (fun b : Booking => b.id)
        (fun b => { b with status := status }) (fun _ => rfl) bookingId b st.bookings hb'
      exact find?_updateById_self (fun b : Booking => b.id)
        (fun b => { b with auditLogs := b.auditLogs ++
          [⟨"Status updated to " ++ status, now⟩] }) (fun _ => rfl) bookingId _ _ h1

/-- C9 witness: on a store holding booking 1 the hypotheses hold and the
amended behaviour evaluates as stated, via the theorem. -/
theorem c9_witness :
    (BookingRepository.findById
        (⟨[⟨1, 2, 1, 1, 0, 1, 50, none, "pending", 0, []⟩], [], [], []⟩ : Store) 1 =
      some ⟨1, 2, 1, 1, 0, 1, 50, none, "pending", 0, []⟩) ∧
    (BookingService.updateBookingStatus
        ⟨[⟨1, 2, 1, 1, 0, 1, 50, none, "pending", 0, []⟩], [], [], []⟩ 9 1 "confirmed").1 =
      some ⟨1, 2, 1, 1, 0, 1, 50, none, "confirmed", 0, []⟩ ∧
    BookingRepository.findById
        (BookingService.updateBookingStatus
          ⟨[⟨1, 2, 1, 1, 0, 1, 50, none, "pending", 0, []⟩], [], [], []⟩ 9 1 "confirmed").2 1 =
      some ⟨1, 2, 1, 1, 0, 1, 50, none, "confirmed", 0,
        [⟨"Status updated to confirmed", 9⟩]⟩ :=
  ⟨rfl,
   (c9_update_status ⟨[⟨1, 2, 1, 1, 0, 1, 50, none, "pending", 0, []⟩], [], [], []⟩
      9 1 "confirmed").2 _ rfl⟩

theorem mem_searchBookings (st : Store) (flt : Booking → Bool) (b : Booking)
    (hb : b ∈ BookingRepository.searchBookings st flt) :
    b ∈ st.bookings ∧ flt b = true := by
  unfold BookingRepository.searchBookings at hb
  have h1 := List.mem_of_mem_take hb
  have h2 := (List.perm_insertionSort _ _).mem_iff.mp h1
  exact ⟨(List.mem_filter.mp h2).1, (List.mem_filter.mp h2).2⟩

theorem searchBookings_nodup_ids (st : Store) (flt : Booking → Bool)
    (hnd : (st.bookings.map (fun b => b.id)).Nodup) :
    ((BookingRepository.searchBookings st flt).map (fun b => b.id)).Nodup := by
  unfold BookingRepository.searchBookings
  have h1 : ((st.bookings.filter flt).map (fun b => b.id)).Nodup :=
    ((List.filter_sublist st.bookings).map (fun b => b.id)).nodup hnd
  have h2 : (((st.bookings.filter flt).insertionSort
      (fun a b : Booking => b.createdAt ≤ a.createdAt)).map (fun b => b.id)).Nodup :=
    ((List.perm_insertionSort (fun a b : Booking => b.createdAt ≤ a.createdAt)
      (st.bookings.filter flt)).map (fun b : Booking => b.id)).nodup_iff.mpr h1
  exact ((List.take_sublist 10 ((st.bookings.filter flt).insertionSort
      (fun a b : Booking => b.createdAt ≤ a.createdAt))).map
    (fun b : Booking => b.id)).nodup h2

theorem searchBookings_length_le (st : Store) (flt : Booking → Bool) :
    (BookingRepository.searchBookings st flt).length ≤ 10 :=
  List.length_take_le 10 _

theorem sweepStep_find_ne (now : Int) (st : Store) (i j : Nat) (hne : j ≠ i) :
    BookingRepository.findById (BookingService.sweepStep now st i) j =
      BookingRepository.findById st j := by
  show (updateById (fun b => b.id)
      (updateById (fun b => b.id) st.bookings i (fun b => { b with status := "cancelled" })) i
      (fun b => { b with auditLogs := b.auditLogs ++
        [⟨"Booking auto-cancelled due to expiration", now⟩] })).find?
      (fun b => b.id == j) = st.bookings.find? (fun b => b.id == j)
  rw [find?_updateById_ne (fun b : Booking => b.id)
      (fun b => { b with auditLogs := b.auditLogs ++
        [⟨"Booking auto-cancelled due to expiration", now⟩] }) (fun _ => rfl) i j hne,
    find?_updateById_ne (fun b : Booking => b.id)
      (fun b => { b with status := "cancelled" }) (fun _ => rfl) i j hne]

theorem sweepStep_find_self (now : Int) (st : Store) (i : Nat) (b : Booking)
    (hb : BookingRepository.findById st i = some b) :
    BookingRepository.findById (BookingService.sweepStep now st i) i =
      some { b with status := "cancelled",
                    auditLogs := b.auditLogs ++
                      [⟨"Booking auto-cancelled due to expiration", now⟩] } := by
  have hb' : st.bookings.find? (fun a => a.id == i) = some b := hb
  have h1 := find?_updateById_self (fun b : Booking => b.id)
    (fun b => { b with status := "cancelled" }) (fun _ => rfl) i b st.bookings hb'
  exact find?_updateById_self (fun b : Booking => b.id)
    (fun b => { b with auditLogs := b.auditLogs ++
      [⟨"Booking auto-cancelled due to expiration", now⟩] }) (fun _ => rfl) i _ _ h1

theorem foldl_sweep_find_ne (now : Int) (i : Nat) :
    ∀ (page : List Booking) (st : Store), (∀ b ∈ page, b.id ≠ i) →
      BookingRepository.findById
          (page.foldl (fun acc c => BookingService.sweepStep now acc c.id) st) i =
        BookingRepository.findById st i := by
  intro page
  induction page with
  | nil => intro st _; rfl
  | cons c rest ih =>
    intro st h
    rw [List.foldl_cons]
    rw [ih _ (fun b hb => h b (List.mem_cons_of_mem c hb))]
    exact sweepStep_find_ne now st c.id i (Ne.symm (h c (List.mem_cons_self c rest)))

theorem foldl_sweep_find_effect (now : Int) :
    ∀ (page : List Booking) (st : Store),
      (page.map (fun b => b.id)).Nodup →
      (∀ b ∈ page, BookingRepository.findById st b.id = some b) →
      ∀ b ∈ page,
        BookingRepository.findById
            (page.foldl (fun acc c => BookingService.sweepStep now acc c.id) st) b.id =
          some { b with status := "cancelled",
                        auditLogs := b.auditLogs ++
                          [⟨"Booking auto-cancelled due to expiration", now⟩] } := by
  intro page
  induction page with
  | nil => intro st _ _ b hb; cases hb
  | cons c rest ih =>
    intro st hnd hfind b hb
    rw [List.map_cons, List.nodup_cons] at hnd
    rw [List.foldl_cons]
    rcases List.mem_cons.mp hb with hbc | hbr
    · subst hbc
      rw [foldl_sweep_find_ne now b.id rest _
        (fun x hx hxe => hnd.1 (hxe ▸ List.mem_map_of_mem (fun y => y.id) hx))]
      exact sweepStep_find_self now st b.id b (hfind b (List.mem_cons_self b rest))
    · apply ih (BookingService.sweepStep now st c.id) hnd.2 ?_ b hbr
      intro x hx
      rw [sweepStep_find_ne now st c.id x.id
        (fun hxe => hnd.1 (hxe ▸ List.mem_map_of_mem (fun y => y.id) hx))]
      exact hfind x (List.mem_cons_of_mem c hx)

/-- C2 counterexample.  The claim says every pending booking older than 30
minutes is visited; but `searchBookings` is called with default options and
returns only the first page — at most 10 results, the most recently created
first.  With eleven expired pending bookings, the oldest one (id 1) matches
the expiry predicate and is in the store, yet after the sweep it is
untouched: still pending, no audit entry. -/
theorem c2_counterexample :
    (expiredFilter 10000000 (⟨1, 1, 1, 1, 0, 1, 0, none, "pending", 1, []⟩ : Booking)
        = true) ∧
    (⟨1, 1, 1, 1, 0, 1, 0, none, "pending", 1, []⟩ : Booking) ∈
      (⟨[⟨1, 1, 1, 1, 0, 1, 0, none, "pending", 1, []⟩,
         ⟨2, 1, 1, 1, 0, 1, 0, none, "pending", 2, []⟩,
         ⟨3, 1, 1, 1, 0, 1, 0, none, "pending", 3, []⟩,
         ⟨4, 1, 1, 1, 0, 1, 0, none, "pending", 4, []⟩,
         ⟨5, 1, 1, 1, 0, 1, 0, none, "pending", 5, []⟩,
         ⟨6, 1, 1, 1, 0, 1, 0, none, "pending", 6, []⟩,
         ⟨7, 1, 1, 1, 0, 1, 0, none, "pending", 7, []⟩,
         ⟨8, 1, 1, 1, 0, 1, 0, none, "pending", 8, []⟩,
         ⟨9, 1, 1, 1, 0, 1, 0, none, "pending", 9, []⟩,
         ⟨10, 1, 1, 1, 0, 1, 0, none, "pending", 10, []⟩,
         ⟨11, 1, 1, 1, 0, 1, 0, none, "pending", 11, []⟩], [], [], []⟩ : Store).bookings ∧
    BookingRepository.findById
        (BookingService.autoCancelExpiredBookings
          ⟨[⟨1, 1, 1, 1, 0, 1, 0, none, "pending", 1, []⟩,
            ⟨2, 1, 1, 1, 0, 1, 0, none, "pending", 2, []⟩,
            ⟨3, 1, 1, 1, 0, 1, 0, none, "pending", 3, []⟩,
            ⟨4, 1, 1, 1, 0, 1, 0, none, "pending", 4, []⟩,
            ⟨5, 1, 1, 1, 0, 1, 0, none, "pending", 5, []⟩,
            ⟨6, 1, 1, 1, 0, 1, 0, none, "pending", 6, []⟩,
            ⟨7, 1, 1, 1, 0, 1, 0, none, "pending", 7, []⟩,
            ⟨8, 1, 1, 1, 0, 1, 0, none, "pending", 8, []⟩,
            ⟨9, 1, 1, 1, 0, 1, 0, none, "pending", 9, []⟩,
            ⟨10, 1, 1, 1, 0, 1, 0, none, "pending", 10, []⟩,
            ⟨11, 1, 1, 1, 0, 1, 0, none, "pending", 11, []⟩], [], [], []⟩ 10000000) 1 =
      some ⟨1, 1, 1, 1, 0, 1, 0, none, "pending", 1, []⟩ := by
  refine ⟨by decide, by decide, ?_⟩
  decide

/-- C2 amended.  A sweep queries matching bookings through the paginated
search (first page only: at most the 10 most recently created matches);
every booking of that returned page matches the expiry predicate and is
visited exactly once — its status becomes `cancelled` and exactly one audit
action `Booking auto-cancelled due to expiration` is appended to its log.
Matching bookings beyond the page limit are not processed in that
invocation. -/
theorem c2_sweep_page_processed (st : Store) (now : Int)
    (hnd : (st.bookings.map (fun b => b.id)).Nodup) :
    (BookingRepository.searchBookings st (expiredFilter now)).length ≤ 10 ∧
    ∀ b ∈ BookingRepository.searchBookings st (expiredFilter now),
      b.status = "pending" ∧ b.createdAt < now - 30 * 60 * 1000 ∧
      BookingRepository.findById (BookingService.autoCancelExpiredBookings st now) b.id =
        some { b with status := "cancelled",
                      auditLogs := b.auditLogs ++
                        [⟨"Booking auto-cancelled due to expiration", now⟩] } := by
  refine ⟨searchBookings_length_le st _, ?_⟩
  intro b hb
  obtain ⟨hmem, hflt⟩ := mem_searchBookings st _ b hb
  have hstat : b.status = "pending" ∧ b.createdAt < now - 30 * 60 * 1000 := by
    simpa [expiredFilter] using hflt
  refine ⟨hstat.1, hstat.2, ?_⟩
  unfold BookingService.autoCancelExpiredBookings
  apply foldl_sweep_find_effect now _ st (searchBookings_nodup_ids st _ hnd) ?_ b hb
  intro x hx
  exact find?_eq_of_mem_nodup (fun y => y.id) st.bookings x hnd
    (mem_searchBookings st _ x hx).1

/-- C2 witness: a store with one expired pending booking satisfies the
Nodup hypothesis, and the theorem yields the page bound and the per-page
effect. -/
theorem c2_witness :
    ((⟨[⟨1, 1, 1, 1, 0, 1, 0, none, "pending", 1, []⟩], [], [], []⟩ : Store).bookings.map
      (fun b => b.id)).Nodup ∧
    ((BookingRepository.searchBookings
        (⟨[⟨1, 1, 1, 1, 0, 1, 0, none, "pending", 1, []⟩], [], [], []⟩ : Store)
        (expiredFilter 10000000)).length ≤ 10 ∧
     ∀ b ∈ BookingRepository.searchBookings
        (⟨[⟨1, 1, 1, 1, 0, 1, 0, none, "pending", 1, []⟩], [], [], []⟩ : Store)
        (expiredFilter 10000000),
      b.status = "pending" ∧ b.createdAt < 10000000 - 30 * 60 * 1000 ∧
      BookingRepository.findById
          (BookingService.autoCancelExpiredBookings
            ⟨[⟨1, 1, 1, 1, 0, 1, 0, none, "pending", 1, []⟩], [], [], []⟩ 10000000) b.id =
        some { b with status := "cancelled",
                      auditLogs := b.auditLogs ++
                        [⟨"Booking auto-cancelled due to expiration", 10000000⟩] }) :=
  ⟨by decide,
   c2_sweep_page_processed
     ⟨[⟨1, 1, 1, 1, 0, 1, 0, none, "pending", 1, []⟩], [], [], []⟩ 10000000 (by decide)⟩

/-- C7.  A sweep leaves every booking that does not match the expiry
predicate untouched: any stored booking that is not pending, or is pending
but not older than 30 minutes, is found unchanged afterwards — same fields,
no audit entry appended. -/
theorem c7_sweep_frame (st : Store) (now : Int) (b : Booking)
    (hnd : (st.bookings.map (fun x => x.id)).Nodup)
    (hb : b ∈ st.bookings)
    (hnm : b.status ≠ "pending" ∨ ¬ b.createdAt < now - 30 * 60 * 1000) :
    BookingRepository.findById (BookingService.autoCancelExpiredBookings st now) b.id =
      some b := by
  unfold BookingService.autoCancelExpiredBookings
  rw [foldl_sweep_find_ne now b.id _ st ?_]
  · exact find?_eq_of_mem_nodup (fun x => x.id) st.bookings b hnd hb
  · intro c hc hce
    obtain ⟨hcm, hcf⟩ := mem_searchBookings st _ c hc
    have hcb : c = b := key_inj_of_nodup (fun x => x.id) st.bookings hnd hcm hb hce
    subst hcb
    have hcf' : c.status = "pending" ∧ c.createdAt < now - 30 * 60 * 1000 := by
      simpa [expiredFilter] using hcf
    rcases hnm with h | h
    · exact h hcf'.1
    · exact h hcf'.2

/-- C7 witness: with a confirmed booking and a fresh pending booking in the
store, both are untouched by a sweep, via the theorem. -/
theorem c7_witness :
    ((⟨[⟨1, 1, 1, 1, 0, 1, 0, none, "confirmed", 1, []⟩,
        ⟨2, 1, 1, 1, 0, 1, 0, none, "pending", 9000000, []⟩], [], [], []⟩ : Store).bookings.map
      (fun x => x.id)).Nodup ∧
    BookingRepository.findById
        (BookingService.autoCancelExpiredBookings
          ⟨[⟨1, 1, 1, 1, 0, 1, 0, none, "confirmed", 1, []⟩,
            ⟨2, 1, 1, 1, 0, 1, 0, none, "pending", 9000000, []⟩], [], [], []⟩ 10000000) 1 =
      some ⟨1, 1, 1, 1, 0, 1, 0, none, "confirmed", 1, []⟩ ∧
    BookingRepository.findById
        (BookingService.autoCancelExpiredBookings
          ⟨[⟨1, 1, 1, 1, 0, 1, 0, none, "confirmed", 1, []⟩,
            ⟨2, 1, 1, 1, 0, 1, 0, none, "pending", 9000000, []⟩], [], [], []⟩ 10000000) 2 =
      some ⟨2, 1, 1, 1, 0, 1, 0, none, "pending", 9000000, []⟩ :=
  ⟨by decide,
   c7_sweep_frame _ 10000000 ⟨1, 1, 1, 1, 0, 1, 0, none, "confirmed", 1, []⟩
     (by decide) (by decide) (Or.inl (by decide)),
   c7_sweep_frame _ 10000000 ⟨2, 1, 1, 1, 0, 1, 0, none, "pending", 9000000, []⟩
     (by decide) (by decide) (Or.inr (by decide))⟩

theorem sweepFallibleLoop_splits (failUpd failLog : Nat → Bool) (now : Int)
    (bad : Booking) (rest : List Booking) (hbad : failUpd bad.id = true) :
    ∀ (good : List Booking) (st : Store),
      (∀ g ∈ good, failUpd g.id = false) → (∀ g ∈ good, failLog g.id = false) →
      BookingService.sweepFallibleLoop failUpd failLog now (good ++ bad :: rest) st =
        (good.foldl (fun acc c => BookingService.sweepStep now acc c.id) st,
         some (.updateFailed bad.id)) := by
  intro good
  induction good with
  | nil =>
    intro st _ _
    simp only [List.nil_append, BookingService.sweepFallibleLoop, hbad, if_true,
      List.foldl_nil]
  | cons g rest2 ih =>
    intro st hU hL
    have hgU := hU g (List.mem_cons_self g rest2)
    have hgL := hL g (List.mem_cons_self g rest2)
    rw [List.cons_append]
    simp only [BookingService.sweepFallibleLoop, hgU, hgL, Bool.false_eq_true, if_false]
    rw [List.foldl_cons]
    exact ih _ (fun x hx => hU x (List.mem_cons_of_mem g hx))
      (fun x hx => hL x (List.mem_cons_of_mem g hx))

theorem updateBooking_find_ne (st : Store) (i j : Nat) (s : String) (hne : j ≠ i) :
    BookingRepository.findById (BookingRepository.updateBooking st i s).2 j =
      BookingRepository.findById st j := by
  show (updateById (fun b => b.id) st.bookings i
      (fun b => { b with status := s })).find? (fun b => b.id == j) =
    st.bookings.find? (fun b => b.id == j)
  rw [find?_updateById_ne (fun b : Booking => b.id)
      (fun b => { b with status := s }) (fun _ => rfl) i j hne]

theorem sweepFallibleLoop_splitsLog (failUpd failLog : Nat → Bool) (now : Int)
    (bad : Booking) (rest : List Booking)
    (hbadU : failUpd bad.id = false) (hbadL : failLog bad.id = true) :
    ∀ (good : List Booking) (st : Store),
      (∀ g ∈ good, failUpd g.id = false) → (∀ g ∈ good, failLog g.id = false) →
      BookingService.sweepFallibleLoop failUpd failLog now (good ++ bad :: rest) st =
        ((BookingRepository.updateBooking
            (good.foldl (fun acc c => BookingService.sweepStep now acc c.id) st)
            bad.id "cancelled").2,
         some (.logFailed bad.id)) := by
  intro good
  induction good with
  | nil =>
    intro st _ _
    simp only [List.nil_append, BookingService.sweepFallibleLoop, hbadU, hbadL,
      Bool.false_eq_true, if_false, if_true, List.foldl_nil]
  | cons g rest2 ih =>
    intro st hU hL
    have hgU := hU g (List.mem_cons_self g rest2)
    have hgL := hL g (List.mem_cons_self g rest2)
    rw [List.cons_append]
    simp only [BookingService.sweepFallibleLoop, hgU, hgL, Bool.false_eq_true, if_false]
    rw [List.foldl_cons]
    exact ih _ (fun x hx => hU x (List.mem_cons_of_mem g hx))
      (fun x hx => hL x (List.mem_cons_of_mem g hx))

/-- C8 counterexample.  The claim says a failure on one matching booking
does not abort the sweep for the others.  With two expired pending
bookings, processed most-recent-first (booking 1, then booking 2), a
rejection of booking 1's update propagates out of the un-caught loop:
booking 2 matches the expiry predicate but is left pending with no audit
entry. -/
theorem c8_counterexample :
    (expiredFilter 10000000 (⟨2, 1, 1, 1, 0, 1, 0, none, "pending", 50, []⟩ : Booking)
        = true) ∧
    (BookingService.autoCancelExpiredBookingsFallible (fun j => j == 1) (fun _ => false)
        ⟨[⟨1, 1, 1, 1, 0, 1, 0, none, "pending", 100, []⟩,
          ⟨2, 1, 1, 1, 0, 1, 0, none, "pending", 50, []⟩], [], [], []⟩ 10000000).2 =
      some (.updateFailed 1) ∧
    BookingRepository.findById
        (BookingService.autoCancelExpiredBookingsFallible (fun j => j == 1) (fun _ => false)
          ⟨[⟨1, 1, 1, 1, 0, 1, 0, none, "pending", 100, []⟩,
            ⟨2, 1, 1, 1, 0, 1, 0, none, "pending", 50, []⟩], [], [], []⟩ 10000000).1 2 =
      some ⟨2, 1, 1, 1, 0, 1, 0, none, "pending", 50, []⟩ := by
  refine ⟨by decide, by decide, ?_⟩
  decide

/-- C8 amended.  The sweep applies no transactional wrapping, but neither
does it isolate per-entity failures: when the status update or the
audit-log call of one matching booking rejects, the invocation stops there
— bookings processed before it keep their update and audit entry (no
rollback), the failure propagates, and every matching booking after the
failing one in iteration order is left untouched, neither updated nor
logged. -/
theorem c8_sweep_aborts_on_failure (st : Store) (now : Int)
    (failUpd failLog : Nat → Bool)
    (good : List Booking) (bad : Booking) (rest : List Booking)
    (hnd : (st.bookings.map (fun x => x.id)).Nodup)
    (hpage : BookingRepository.searchBookings st (expiredFilter now) = good ++ bad :: rest)
    (hgU : ∀ g ∈ good, failUpd g.id = false)
    (hgL : ∀ g ∈ good, failLog g.id = false)
    (hbad : failUpd bad.id = true ∨ failLog bad.id = true) :
    ((BookingService.autoCancelExpiredBookingsFallible failUpd failLog st now).2 =
        some (.updateFailed bad.id) ∨
     (BookingService.autoCancelExpiredBookingsFallible failUpd failLog st now).2 =
        some (.logFailed bad.id)) ∧
    (∀ g ∈ good,
      BookingRepository.findById
          (BookingService.autoCancelExpiredBookingsFallible failUpd failLog st now).1 g.id =
        some { g with status := "cancelled",
                      auditLogs := g.auditLogs ++
                        [⟨"Booking auto-cancelled due to expiration", now⟩] }) ∧
    (∀ b ∈ rest,
      BookingRepository.findById
          (BookingService.autoCancelExpiredBookingsFallible failUpd failLog st now).1 b.id =
        some b) := by
  have hndp := searchBookings_nodup_ids st (expiredFilter now) hnd
  rw [hpage, List.map_append, List.nodup_append] at hndp
  have hgood_find : ∀ x ∈ good, BookingRepository.findById st x.id = some x := by
    intro x hx
    have hxm : x ∈ st.bookings := by
      have hxp : x ∈ BookingRepository.searchBookings st (expiredFilter now) := by
        rw [hpage]
        exact List.mem_append_left _ hx
      exact (mem_searchBookings st _ x hxp).1
    exact find?_eq_of_mem_nodup (fun y => y.id) st.bookings x hnd hxm
  have hrest_find : ∀ b ∈ rest, BookingRepository.findById st b.id = some b := by
    intro b hbr
    have hbm : b ∈ st.bookings := by
      have hbp : b ∈ BookingRepository.searchBookings st (expiredFilter now) := by
        rw [hpage]
        exact List.mem_append_right _ (List.mem_cons_of_mem bad hbr)
      exact (mem_searchBookings st _ b hbp).1
    exact find?_eq_of_mem_nodup (fun y => y.id) st.bookings b hnd hbm
  have hgood_ne_rest : ∀ b ∈ rest, ∀ g ∈ good, g.id ≠ b.id := by
    intro b hbr g hg hge
    exact hndp.2.2 (List.mem_map_of_mem (fun y => y.id) hg)
      (hge ▸ List.mem_cons_of_mem bad.id
        (List.mem_map_of_mem (fun y => y.id) hbr))
  have hgood_ne_bad : ∀ g ∈ good, g.id ≠ bad.id := by
    intro g hg hge
    refine hndp.2.2 (List.mem_map_of_mem (fun y => y.id) hg) ?_
    rw [hge]
    exact List.mem_cons_self _ _
  have hrest_ne_bad : ∀ b ∈ rest, b.id ≠ bad.id := by
    intro b hbr hbe
    have h2 := hndp.2.1
    rw [List.map_cons, List.nodup_cons] at h2
    exact h2.1 (hbe ▸ List.mem_map_of_mem (fun y => y.id) hbr)
  by_cases hU : failUpd bad.id = true
  · have hrun : BookingService.autoCancelExpiredBookingsFallible failUpd failLog st now =
        (good.foldl (fun acc c => BookingService.sweepStep now acc c.id) st,
         some (.updateFailed bad.id)) := by
      unfold BookingService.autoCancelExpiredBookingsFallible
      rw [hpage]
      exact sweepFallibleLoop_splits failUpd failLog now bad rest hU good st hgU hgL
    rw [hrun]
    refine ⟨Or.inl rfl, ?_, ?_⟩
    · intro g hg
      exact foldl_sweep_find_effect now good st hndp.1 hgood_find g hg
    · intro b hbr
      rw [foldl_sweep_find_ne now b.id good st (hgood_ne_rest b hbr)]
      exact hrest_find b hbr
  · have hU' : failUpd bad.id = false := by
      cases h : failUpd bad.id
      · rfl
      · exact absurd h hU
    have hL : failLog bad.id = true := by
      rcases hbad with h | h
      · exact absurd h hU
      · exact h
    have hrun : BookingService.autoCancelExpiredBookingsFallible failUpd failLog st now =
        ((BookingRepository.updateBooking
            (good.foldl (fun acc c => BookingService.sweepStep now acc c.id) st)
            bad.id "cancelled").2,
         some (.logFailed bad.id)) := by
      unfold BookingService.autoCancelExpiredBookingsFallible
      rw [hpage]
      exact sweepFallibleLoop_splitsLog failUpd failLog now bad rest hU' hL good st hgU hgL
    rw [hrun]
    refine ⟨Or.inr rfl, ?_, ?_⟩
    · intro g hg
      rw [updateBooking_find_ne _ bad.id g.id "cancelled" (hgood_ne_bad g hg)]
      exact foldl_sweep_find_effect now good st hndp.1 hgood_find g hg
    · intro b hbr
      rw [updateBooking_find_ne _ bad.id b.id "cancelled" (hrest_ne_bad b hbr)]
      rw [foldl_sweep_find_ne now b.id good st (hgood_ne_rest b hbr)]
      exact hrest_find b hbr

/-- C8 witness: three expired bookings processed most-recent-first
(ids 3, 2, 1); the audit-log call of booking 2 rejects after its status
update, so the sweep aborts with a log failure — booking 3 keeps its
cancellation and audit entry while booking 1 is untouched, via the
theorem. -/
theorem c8_witness :
    ((⟨[⟨1, 1, 1, 1, 0, 1, 0, none, "pending", 10, []⟩,
        ⟨2, 1, 1, 1, 0, 1, 0, none, "pending", 20, []⟩,
        ⟨3, 1, 1, 1, 0, 1, 0, none, "pending", 30, []⟩], [], [], []⟩ : Store).bookings.map
      (fun x => x.id)).Nodup ∧
    BookingRepository.searchBookings
        ⟨[⟨1, 1, 1, 1, 0, 1, 0, none, "pending", 10, []⟩,
          ⟨2, 1, 1, 1, 0, 1, 0, none, "pending", 20, []⟩,
          ⟨3, 1, 1, 1, 0, 1, 0, none, "pending", 30, []⟩], [], [], []⟩
        (expiredFilter 10000000) =
      [⟨3, 1, 1, 1, 0, 1, 0, none, "pending", 30, []⟩] ++
        (⟨2, 1, 1, 1, 0, 1, 0, none, "pending", 20, []⟩ : Booking) ::
          [⟨1, 1, 1, 1, 0, 1, 0, none, "pending", 10, []⟩] ∧
    (((BookingService.autoCancelExpiredBookingsFallible (fun _ => false)
          (fun j => j == 2)
          ⟨[⟨1, 1, 1, 1, 0, 1, 0, none, "pending", 10, []⟩,
            ⟨2, 1, 1, 1, 0, 1, 0, none, "pending", 20, []⟩,
            ⟨3, 1, 1, 1, 0, 1, 0, none, "pending", 30, []⟩], [], [], []⟩ 10000000).2 =
        some (.updateFailed 2) ∨
      (BookingService.autoCancelExpiredBookingsFallible (fun _ => false)
          (fun j => j == 2)
          ⟨[⟨1, 1, 1, 1, 0, 1, 0, none, "pending", 10, []⟩,
            ⟨2, 1, 1, 1, 0, 1, 0, none, "pending", 20, []⟩,
            ⟨3, 1, 1, 1, 0, 1, 0, none, "pending", 30, []⟩], [], [], []⟩ 10000000).2 =
        some (.logFailed 2)) ∧
     (∀ g ∈ [(⟨3, 1, 1, 1, 0, 1, 0, none, "pending", 30, []⟩ : Booking)],
      BookingRepository.findById
          (BookingService.autoCancelExpiredBookingsFallible (fun _ => false)
            (fun j => j == 2)
            ⟨[⟨1, 1, 1, 1, 0, 1, 0, none, "pending", 10, []⟩,
              ⟨2, 1, 1, 1, 0, 1, 0, none, "pending", 20, []⟩,
              ⟨3, 1, 1, 1, 0, 1, 0, none, "pending", 30, []⟩], [], [], []⟩ 10000000).1 g.id =
        some { g with status := "cancelled",
                      auditLogs := g.auditLogs ++
                        [⟨"Booking auto-cancelled due to expiration", 10000000⟩] }) ∧
     (∀ b ∈ [(⟨1, 1, 1, 1, 0, 1, 0, none, "pending", 10, []⟩ : Booking)],
      BookingRepository.findById
          (BookingService.autoCancelExpiredBookingsFallible (fun _ => false)
            (fun j => j == 2)
            ⟨[⟨1, 1, 1, 1, 0, 1, 0, none, "pending", 10, []⟩,
              ⟨2, 1, 1, 1, 0, 1, 0, none, "pending", 20, []⟩,
              ⟨3, 1, 1, 1, 0, 1, 0, none, "pending", 30, []⟩], [], [], []⟩ 10000000).1 b.id =
        some b)) :=
  ⟨by decide, by decide,
   c8_sweep_aborts_on_failure
     ⟨[⟨1, 1, 1, 1, 0, 1, 0, none, "pending", 10, []⟩,
       ⟨2, 1, 1, 1, 0, 1, 0, none, "pending", 20, []⟩,
       ⟨3, 1, 1, 1, 0, 1, 0, none, "pending", 30, []⟩], [], [], []⟩ 10000000
     (fun _ => false) (fun j => j == 2)
     [⟨3, 1, 1, 1, 0, 1, 0, none, "pending", 30, []⟩]
     ⟨2, 1, 1, 1, 0, 1, 0, none, "pending", 20, []⟩
     [⟨1, 1, 1, 1, 0, 1, 0, none, "pending", 10, []⟩]
     (by decide) (by decide) (by decide) (by decide) (Or.inr (by decide))⟩

/-- C3.  Cancelling an existing booking owned by the caller that carries a
payment reference issues exactly one refund call against the Payment store,
for the booking's full paid amount (`processRefund(booking.paymentId,
booking.amount)`); appends the `Booking Cancelled` audit entry to the
partner's action log; sets the booking's status to `cancelled`; and returns
the updated entity. -/
theorem c3_cancel_refunds_once (st : Store) (now : Int) (bookingId clientId p : Nat)
    (b : Booking) (pr : Partner)
    (hb : BookingRepository.findById st bookingId = some b)
    (hc : b.clientId = clientId)
    (hp : b.paymentId = some p)
    (hpr : PartnerRepository.findById st b.partnerId = some pr) :
    (BookingService.cancelBooking st now bookingId clientId).2.refundCalls =
      st.refundCalls ++ [(p, b.amount)] ∧
    PartnerRepository.findById
        (BookingService.cancelBooking st now bookingId clientId).2 b.partnerId =
      some { pr with auditLogs := pr.auditLogs ++ [⟨"Booking Cancelled", now⟩] } ∧
    (BookingService.cancelBooking st now bookingId clientId).1 =
      .ok (some { b with status := "cancelled" }) ∧
    BookingRepository.findById
        (BookingService.cancelBooking st now bookingId clientId).2 bookingId =
      some { b with status := "cancelled" } := by
  have hb' : st.bookings.find? (fun a => a.id == bookingId) = some b := hb
  have hpr' : st.partners.find? (fun a => a.id == b.partnerId) = some pr := hpr
  obtain ⟨bid, bcl, bprt, bsp, bst, ben, bam, bpay, bsta, bca, blog⟩ := b
  have hp' : bpay = some p := hp
  subst hp'
  have hc' : bcl = clientId := hc
  subst hc'
  have hni : ¬ (Booking.mk bid bcl bprt bsp bst ben bam (some p) bsta bca
      blog).clientId ≠ bcl := by simp
  have hpr2 : (PaymentRepository.processRefund st p bam).2.partners.find?
      (fun a => a.id == bprt) = some pr := by
    rw [processRefund_snd_partners]
    exact hpr'
  have hb2 : (PaymentRepository.processRefund st p bam).2.bookings.find?
      (fun a => a.id == bookingId) =
      some (Booking.mk bid bcl bprt bsp bst ben bam (some p) bsta bca blog) := by
    rw [processRefund_snd_bookings]
    exact hb'
  unfold BookingService.cancelBooking
  rw [hb]
  simp only [if_neg hni]
  refine ⟨?_, ?_, ?_, ?_⟩
  · exact processRefund_snd_refundCalls st p bam
  · exact find?_updateById_self (fun x : Partner => x.id)
      (fun x => { x with auditLogs := x.auditLogs ++ [⟨"Booking Cancelled", now⟩] })
      (fun _ => rfl) bprt pr _ hpr2
  · exact congrArg (fun o : Option Booking =>
      (Except.ok (o.map (fun x : Booking =>
        ({ x with status := "cancelled" } : Booking))) :
          Except BookingErr (Option Booking))) hb2
  · exact find?_updateById_self (fun x : Booking => x.id)
      (fun x => { x with status := "cancelled" })
      (fun _ => rfl) bookingId _ _ hb2

/-- C3 witness: a store with the owned booking 1 (payment reference 5,
amount 80), its partner 4 and the payment record; cancelling appends one
refund call `(5, 80)`, one partner audit entry, and cancels the booking,
via the theorem. -/
theorem c3_witness :
    (BookingRepository.findById
        (⟨[⟨1, 2, 4, 1, 0, 10, 80, some 5, "confirmed", 0, []⟩],
          [⟨4, "active", []⟩], [⟨5, false, 0⟩], []⟩ : Store) 1 =
      some ⟨1, 2, 4, 1, 0, 10, 80, some 5, "confirmed", 0, []⟩) ∧
    ((BookingService.cancelBooking
        ⟨[⟨1, 2, 4, 1, 0, 10, 80, some 5, "confirmed", 0, []⟩],
          [⟨4, "active", []⟩], [⟨5, false, 0⟩], []⟩ 3 1 2).2.refundCalls =
      [] ++ [(5, 80)] ∧
     PartnerRepository.findById
        (BookingService.cancelBooking
          ⟨[⟨1, 2, 4, 1, 0, 10, 80, some 5, "confirmed", 0, []⟩],
            [⟨4, "active", []⟩], [⟨5, false, 0⟩], []⟩ 3 1 2).2 4 =
      some ⟨4, "active", [] ++ [⟨"Booking Cancelled", 3⟩]⟩ ∧
     (BookingService.cancelBooking
        ⟨[⟨1, 2, 4, 1, 0, 10, 80, some 5, "confirmed", 0, []⟩],
          [⟨4, "active", []⟩], [⟨5, false, 0⟩], []⟩ 3 1 2).1 =
      .ok (some ⟨1, 2, 4, 1, 0, 10, 80, some 5, "cancelled", 0, []⟩) ∧
     BookingRepository.findById
        (BookingService.cancelBooking
          ⟨[⟨1, 2, 4, 1, 0, 10, 80, some 5, "confirmed", 0, []⟩],
            [⟨4, "active", []⟩], [⟨5, false, 0⟩], []⟩ 3 1 2).2 1 =
      some ⟨1, 2, 4, 1, 0, 10, 80, some 5, "cancelled", 0, []⟩) :=
  ⟨rfl,
   c3_cancel_refunds_once
     ⟨[⟨1, 2, 4, 1, 0, 10, 80, some 5, "confirmed", 0, []⟩],
       [⟨4, "active", []⟩], [⟨5, false, 0⟩], []⟩ 3 1 2 5 _ _
     rfl rfl rfl rfl⟩

/-- C6.  The refund step of cancelBooking is fire-and-continue: no
hypothesis constrains the Payment store or the amount, so whether the
refund call resolves a payment record (success) or null (failure: the id
does not resolve, or the guard rejects a non-positive amount), its result
is never inspected — the partner audit entry is still appended and the
booking still moves to `cancelled` and is returned. -/
theorem c6_refund_fire_and_continue (st : Store) (now : Int)
    (bookingId clientId p : Nat) (b : Booking) (pr : Partner)
    (hb : BookingRepository.findById st bookingId = some b)
    (hc : b.clientId = clientId)
    (hp : b.paymentId = some p)
    (hpr : PartnerRepository.findById st b.partnerId = some pr) :
    PartnerRepository.findById
        (BookingService.cancelBooking st now bookingId clientId).2 b.partnerId =
      some { pr with auditLogs := pr.auditLogs ++ [⟨"Booking Cancelled", now⟩] } ∧
    (BookingService.cancelBooking st now bookingId clientId).1 =
      .ok (some { b with status := "cancelled" }) ∧
    BookingRepository.findById
        (BookingService.cancelBooking st now bookingId clientId).2 bookingId =
      some { b with status := "cancelled" } := by
  have hb' : st.bookings.find? (fun a => a.id == bookingId) = some b := hb
  have hpr' : st.partners.find? (fun a => a.id == b.partnerId) = some pr := hpr
  obtain ⟨bid, bcl, bprt, bsp, bst, ben, bam, bpay, bsta, bca, blog⟩ := b
  have hp' : bpay = some p := hp
  subst hp'
  have hc' : bcl = clientId := hc
  subst hc'
  have hni : ¬ (Booking.mk bid bcl bprt bsp bst ben bam (some p) bsta bca
      blog).clientId ≠ bcl := by simp
  have hpr2 : (PaymentRepository.processRefund st p bam).2.partners.find?
      (fun a => a.id == bprt) = some pr := by
    rw [processRefund_snd_partners]
    exact hpr'
  have hb2 : (PaymentRepository.processRefund st p bam).2.bookings.find?
      (fun a => a.id == bookingId) =
      some (Booking.mk bid bcl bprt bsp bst ben bam (some p) bsta bca blog) := by
    rw [processRefund_snd_bookings]
    exact hb'
  unfold BookingService.cancelBooking
  rw [hb]
  simp only [if_neg hni]
  refine ⟨?_, ?_, ?_⟩
  · exact find?_updateById_self (fun x : Partner => x.id)
      (fun x => { x with auditLogs := x.auditLogs ++ [⟨"Booking Cancelled", now⟩] })
      (fun _ => rfl) bprt pr _ hpr2
  · exact congrArg (fun o : Option Booking =>
      (Except.ok (o.map (fun x : Booking =>
        ({ x with status := "cancelled" } : Booking))) :
          Except BookingErr (Option Booking))) hb2
  · exact find?_updateById_self (fun x : Booking => x.id)
      (fun x => { x with status := "cancelled" })
      (fun _ => rfl) bookingId _ _ hb2

/-- C6 witness: the Payment store is empty, so the refund call resolves
null (a failed refund); the partner audit entry and the cancellation still
happen, via the theorem. -/
theorem c6_witness :
    (BookingRepository.findById
        (⟨[⟨1, 2, 4, 1, 0, 10, 80, some 5, "confirmed", 0, []⟩],
          [⟨4, "active", []⟩], [], []⟩ : Store) 1 =
      some ⟨1, 2, 4, 1, 0, 10, 80, some 5, "confirmed", 0, []⟩) ∧
    (PartnerRepository.findById
        (BookingService.cancelBooking
          ⟨[⟨1, 2, 4, 1, 0, 10, 80, some 5, "confirmed", 0, []⟩],
            [⟨4, "active", []⟩], [], []⟩ 3 1 2).2 4 =
      some ⟨4, "active", [] ++ [⟨"Booking Cancelled", 3⟩]⟩ ∧
     (BookingService.cancelBooking
        ⟨[⟨1, 2, 4, 1, 0, 10, 80, some 5, "confirmed", 0, []⟩],
          [⟨4, "active", []⟩], [], []⟩ 3 1 2).1 =
      .ok (some ⟨1, 2, 4, 1, 0, 10, 80, some 5, "cancelled", 0, []⟩) ∧
     BookingRepository.findById
        (BookingService.cancelBooking
          ⟨[⟨1, 2, 4, 1, 0, 10, 80, some 5, "confirmed", 0, []⟩],
            [⟨4, "active", []⟩], [], []⟩ 3 1 2).2 1 =
      some ⟨1, 2, 4, 1, 0, 10, 80, some 5, "cancelled", 0, []⟩) :=
  ⟨rfl,
   c6_refund_fire_and_continue
     ⟨[⟨1, 2, 4, 1, 0, 10, 80, some 5, "confirmed", 0, []⟩],
       [⟨4, "active", []⟩], [], []⟩ 3 1 2 5 _ _
     rfl rfl rfl rfl⟩

/-- C10.  At the persistence layer the status is constrained to the six enum
values with default `pending`: validation accepts exactly the six strings,
an absent status field is persisted as `pending`, a persisted status always
is the (defaulted) caller status and passes the enum, and the service's
`createBooking` adds no check of its own — with the partner active and no
conflict it is exactly the repository save of the caller-supplied data. -/
theorem c10_schema_status :
    (∀ s : String, BookingModel.bookingStatusValid s = true ↔
      (s = "pending" ∨ s = "confirmed" ∨ s = "completed" ∨ s = "cancelled" ∨
       s = "expired" ∨ s = "no-show")) ∧
    BookingModel.applyBookingStatusDefault none = "pending" ∧
    (∀ (st : Store) (now : Int) (d : BookingData) (b : Booking) (st2 : Store),
      BookingRepository.createBooking st now d = (.ok b, st2) →
      b.status = BookingModel.applyBookingStatusDefault d.status ∧
      BookingModel.bookingStatusValid b.status = true) ∧
    (∀ (st : Store) (now : Int) (d : BookingData) (pr : Partner),
      PartnerRepository.findById st d.partnerId = some pr → pr.status = "active" →
      BookingRepository.searchBookings st
        (conflictFilter d.partnerId d.startTime d.endTime) = [] →
      BookingService.createBooking st now d =
        BookingRepository.createBooking st now d) := by
  refine ⟨?_, rfl, ?_, ?_⟩
  · intro s
    simp [BookingModel.bookingStatusValid, BookingModel.bookingStatusEnum, List.contains]
  · intro st now d b st2 h
    simp only [BookingRepository.createBooking] at h
    split at h
    case isTrue hv =>
      rw [Prod.mk.injEq] at h
      obtain ⟨h1, _⟩ := h
      injection h1 with h1
      subst h1
      exact ⟨rfl, hv⟩
    case isFalse hv =>
      rw [Prod.mk.injEq] at h
      obtain ⟨h1, _⟩ := h
      cases h1
  · intro st now d pr hpr hact hconf
    unfold BookingService.createBooking
    split
    · rename_i hn
      rw [hn] at hpr
      cases hpr
    · rename_i partner hp
      rw [hp] at hpr
      injection hpr with hpr
      subst hpr
      rw [if_neg (by simp [hact]), hconf]
      simp

/-- C10 witness: all four parts at concrete inputs — `no-show` is in the
enum, the default is `pending`, a save records the defaulted valid status,
and on an active conflict-free partner the service call equals the save. -/
theorem c10_witness :
    BookingModel.bookingStatusValid "no-show" = true ∧
    BookingModel.applyBookingStatusDefault none = "pending" ∧
    ((⟨9, 3, 1, 5, 0, 10, 100, none, "pending", 77, []⟩ : Booking).status =
        BookingModel.applyBookingStatusDefault (none : Option String) ∧
      BookingModel.bookingStatusValid
        (⟨9, 3, 1, 5, 0, 10, 100, none, "pending", 77, []⟩ : Booking).status = true) ∧
    BookingService.createBooking (⟨[], [⟨1, "active", []⟩], [], []⟩ : Store) 77
        ⟨9, 3, 1, 5, 0, 10, 100, none, none⟩ =
      BookingRepository.createBooking ⟨[], [⟨1, "active", []⟩], [], []⟩ 77
        ⟨9, 3, 1, 5, 0, 10, 100, none, none⟩ :=
  ⟨(c10_schema_status.1 "no-show").mpr (by decide),
   c10_schema_status.2.1,
   c10_schema_status.2.2.1 ⟨[], [⟨1, "active", []⟩], [], []⟩ 77
     ⟨9, 3, 1, 5, 0, 10, 100, none, none⟩ _ _ rfl,
   c10_schema_status.2.2.2 ⟨[], [⟨1, "active", []⟩], [], []⟩ 77
     ⟨9, 3, 1, 5, 0, 10, 100, none, none⟩ ⟨1, "active", []⟩ rfl rfl rfl⟩

end Carparkly
